import Mathlib

/-!
Shallow embedding of rag/utils/minio_conn.py (class RAGFlowMinio), a retry and
reconnect shim over a MinIO (S3-compatible) object-store connection.

The remote store is modelled as a list of buckets and an association list of
objects. Every call made on the underlying connection goes through one wrapper
that records the call in a trace, counts it, and consults a fault schedule
that may inject an error (an S3 error with a code, or a generic network
error) in place of the normal store semantics. The client state also counts
reconnects, one-second sleeps, and logged failure messages, so that the
retry, reconnect and logging behaviour of each method is observable.
-/

namespace MinioConn

/-- Object contents: an opaque byte sequence, modelled as a list of bytes. -/
abbrev Bytes := List Nat

/-- S3 error codes relevant to the module: the three codes the source treats
as not-found, plus representatives of every other kind. -/
inductive S3Code
  | noSuchKey
  | noSuchBucket
  | resourceNotFound
  | accessDenied
  | otherCode
deriving DecidableEq, Repr

/-- An error raised by a connection call: either an S3Error carrying a code
(the except S3Error branch of the source) or any other exception, such as a
network failure (the except Exception branch). -/
inductive ConnError
  | s3 (c : S3Code)
  | network
deriving DecidableEq, Repr

/-- The membership test e.code in [NoSuchKey, NoSuchBucket, ResourceNotFound]
from obj_exist and bucket_exists. -/
def notFound (c : S3Code) : Bool :=
  match c with
  | S3Code.noSuchKey => true
  | S3Code.noSuchBucket => true
  | S3Code.resourceNotFound => true
  | _ => false

/-- State of the remote object store: existing buckets and stored objects
keyed by (bucket, key). -/
structure Store where
  buckets : List String
  objects : List (String × String × Bytes)
deriving DecidableEq, Repr

def Store.hasBucket (st : Store) (b : String) : Bool :=
  st.buckets.contains b

def Store.lookupObj (st : Store) (b k : String) : Option Bytes :=
  (st.objects.find? (fun o => b == o.1 && k == o.2.1)).map (fun o => o.2.2)

def Store.insertObj (st : Store) (b k : String) (v : Bytes) : Store :=
  { st with objects := (b, k, v) :: st.objects.filter (fun o => !(b == o.1 && k == o.2.1)) }

def Store.removeObj (st : Store) (b k : String) : Store :=
  { st with objects := st.objects.filter (fun o => !(b == o.1 && k == o.2.1)) }

def Store.addBucket (st : Store) (b : String) : Store :=
  { st with buckets := if st.buckets.contains b then st.buckets else b :: st.buckets }

def Store.dropBucket (st : Store) (b : String) : Store :=
  { st with buckets := st.buckets.filter (fun x => !(x == b)) }

/-- One call on the underlying connection, recording which primitive was
invoked and with which (already resolved) bucket names and keys. -/
inductive ConnCall
  | bucketExists (b : String)
  | makeBucket (b : String)
  | putObject (b k : String)
  | getObject (b k : String)
  | statObject (b k : String)
  | removeObject (b k : String)
  | copyObject (db dk sb sk : String)
  | listObjects (b : String)
  | removeBucket (b : String)
  | presigned (b k : String)
deriving DecidableEq, Repr

/-- Client-side observable state: the remote store, the number of connection
calls made, reconnects performed, one-second sleeps taken, failure messages
logged, and the trace of connection calls issued. -/
structure Sys where
  store : Store
  calls : Nat
  reconnects : Nat
  sleeps : Nat
  logs : Nat
  trace : List ConnCall
deriving DecidableEq, Repr

/-- Result of a piece of code that may raise: ok with a value, or a raised
exception escaping to the enclosing handler or caller. -/
inductive Res (α : Type)
  | ok (a : α)
  | err (e : ConnError)
deriving DecidableEq, Repr

def Res.isOk {α : Type} : Res α → Bool
  | Res.ok _ => true
  | Res.err _ => false

/-- Fault schedule: for each connection-call index, optionally the error that
the call raises instead of executing normally. -/
abbrev Faults := Nat → Option ConnError

/-- Every connection call goes through here: it is traced and counted, then
either the scheduled fault is raised or the normal semantics runs. -/
def connCall {α : Type} (f : Faults) (c : ConnCall)
    (sem : Store → Res (α × Store)) (s : Sys) : Res α × Sys :=
  let s1 : Sys := { s with calls := s.calls + 1, trace := s.trace ++ [c] }
  match f s.calls with
  | some e => (Res.err e, s1)
  | none =>
    match sem s.store with
    | Res.ok (a, st) => (Res.ok a, { s1 with store := st })
    | Res.err e => (Res.err e, s1)

def connBucketExists (f : Faults) (b : String) (s : Sys) : Res Bool × Sys :=
  connCall f (ConnCall.bucketExists b) (fun st => Res.ok (st.hasBucket b, st)) s

def connMakeBucket (f : Faults) (b : String) (s : Sys) : Res Unit × Sys :=
  connCall f (ConnCall.makeBucket b)
    (fun st =>
      if st.hasBucket b then Res.err (ConnError.s3 S3Code.otherCode)
      else Res.ok ((), st.addBucket b)) s

def connPutObject (f : Faults) (b k : String) (v : Bytes) (s : Sys) : Res Unit × Sys :=
  connCall f (ConnCall.putObject b k)
    (fun st =>
      if st.hasBucket b then Res.ok ((), st.insertObj b k v)
      else Res.err (ConnError.s3 S3Code.noSuchBucket)) s

def connGetObject (f : Faults) (b k : String) (s : Sys) : Res Bytes × Sys :=
  connCall f (ConnCall.getObject b k)
    (fun st =>
      match st.lookupObj b k with
      | some v => Res.ok (v, st)
      | none =>
        Res.err (ConnError.s3
          (if st.hasBucket b then S3Code.noSuchKey else S3Code.noSuchBucket))) s

def connStatObject (f : Faults) (b k : String) (s : Sys) : Res Unit × Sys :=
  connCall f (ConnCall.statObject b k)
    (fun st =>
      match st.lookupObj b k with
      | some _ => Res.ok ((), st)
      | none =>
        Res.err (ConnError.s3
          (if st.hasBucket b then S3Code.noSuchKey else S3Code.noSuchBucket))) s

def connRemoveObject (f : Faults) (b k : String) (s : Sys) : Res Unit × Sys :=
  connCall f (ConnCall.removeObject b k)
    (fun st =>
      if st.hasBucket b then Res.ok ((), st.removeObj b k)
      else Res.err (ConnError.s3 S3Code.noSuchBucket)) s

def connCopyObject (f : Faults) (db dk sb sk : String) (s : Sys) : Res Unit × Sys :=
  connCall f (ConnCall.copyObject db dk sb sk)
    (fun st =>
      match st.lookupObj sb sk with
      | some v =>
        if st.hasBucket db then Res.ok ((), st.insertObj db dk v)
        else Res.err (ConnError.s3 S3Code.noSuchBucket)
      | none =>
        Res.err (ConnError.s3
          (if st.hasBucket sb then S3Code.noSuchKey else S3Code.noSuchBucket))) s

def connListObjects (f : Faults) (b : String) (s : Sys) : Res (List String) × Sys :=
  connCall f (ConnCall.listObjects b)
    (fun st =>
      if st.hasBucket b then
        Res.ok ((st.objects.filter (fun o => b == o.1)).map (fun o => o.2.1), st)
      else Res.err (ConnError.s3 S3Code.noSuchBucket)) s

def connRemoveBucket (f : Faults) (b : String) (s : Sys) : Res Unit × Sys :=
  connCall f (ConnCall.removeBucket b)
    (fun st =>
      if st.hasBucket b then
        if (st.objects.filter (fun o => b == o.1)).isEmpty then
          Res.ok ((), st.dropBucket b)
        else Res.err (ConnError.s3 S3Code.otherCode)
      else Res.err (ConnError.s3 S3Code.noSuchBucket)) s

def connPresigned (f : Faults) (b k : String) (expires : Nat) (s : Sys) : Res String × Sys :=
  connCall f (ConnCall.presigned b k)
    (fun st => Res.ok ("GET/" ++ b ++ "/" ++ k ++ "?expires=" ++ toString expires, st)) s

/-! ## Client methods of RAGFlowMinio

Each public method is translated from the source. A method has type
Sys to Res t times Sys: a Res.err result means a Python exception escaped the
method to its caller, Res.ok carries the returned value (with Option for a
method that can fall off its retry loop and return None). The configured
bucket-name setting is a parameter pfx; the fault schedule f stands for the
behaviour of the connection. tenant_id parameters are carried exactly as in
the source, where they are accepted and never read.
-/

/-- Translation of the method that resolves a logical bucket name against the
configured setting MINIO_BUCKET_PREFIX: the f-string transform applied to
the bucket argument, the identity when the setting is empty. -/
def resolveBucket (pfx bucket : String) : String :=
  if pfx == "" then bucket else pfx ++ "-" ++ bucket

/-- logging.exception / logging.error in a failure path. -/
def logErr (s : Sys) : Sys := { s with logs := s.logs + 1 }

/-- The private open method: best-effort close of the current connection and
creation of a new one from the same static configuration. -/
def reopen (s : Sys) : Sys := { s with reconnects := s.reconnects + 1 }

/-- time.sleep(1) between retry attempts. -/
def sleep1 (s : Sys) : Sys := { s with sleeps := s.sleeps + 1 }

/-- The common retry shape: for _ in range(n), try one attempt and return on
success; on any exception, log, reconnect, sleep one second, continue; after
the last failure, fall through and return None. -/
def retryLoop {α : Type} (attempt : Sys → Res α × Sys) : Nat → Sys → Res (Option α) × Sys
  | 0, s => (Res.ok none, s)
  | Nat.succ n, s =>
    match attempt s with
    | (Res.ok r, s1) => (Res.ok (some r), s1)
    | (Res.err _, s1) => retryLoop attempt n (sleep1 (reopen (logErr s1)))

/-- Fixed health-check payload b"_t@@@1" from the source. -/
def healthBinary : Bytes := [95, 116, 64, 64, 64, 49]

/-- Translation of health: resolve the health bucket, create it when absent,
upload the fingerprint object. There is no try/except in the source, so any
connection error escapes to the caller. -/
def health (f : Faults) (pfx healthBucket : String) (s : Sys) : Res Unit × Sys :=
  let pbucket := resolveBucket pfx healthBucket
  match connBucketExists f pbucket s with
  | (Res.err e, s1) => (Res.err e, s1)
  | (Res.ok ex, s1) =>
    match (if ex then (Res.ok (), s1) else connMakeBucket f pbucket s1) with
    | (Res.err e, s2) => (Res.err e, s2)
    | (Res.ok _, s2) =>
      match connPutObject f pbucket "txtxtxtxt1" healthBinary s2 with
      | (Res.err e, s3) => (Res.err e, s3)
      | (Res.ok _, s3) => (Res.ok (), s3)

/-- One attempt of the put method body: resolve the bucket, create it when
absent, upload the bytes. -/
def putAttempt (f : Faults) (pfx bucket fnm : String) (binary : Bytes)
    (s : Sys) : Res Unit × Sys :=
  let pbucket := resolveBucket pfx bucket
  match connBucketExists f pbucket s with
  | (Res.err e, s1) => (Res.err e, s1)
  | (Res.ok ex, s1) =>
    match (if ex then (Res.ok (), s1) else connMakeBucket f pbucket s1) with
    | (Res.err e, s2) => (Res.err e, s2)
    | (Res.ok _, s2) => connPutObject f pbucket fnm binary s2

/-- Translation of put: the attempt retried for _ in range(3). -/
def put (f : Faults) (pfx bucket fnm : String) (binary : Bytes)
    (tenant_id : Option Nat) (s : Sys) : Res (Option Unit) × Sys :=
  retryLoop (putAttempt f pfx bucket fnm binary) 3 s

/-- Translation of rm: one remove_object call; any exception is logged and
swallowed, no reconnect, no retry. -/
def rm (f : Faults) (pfx bucket fnm : String) (tenant_id : Option Nat)
    (s : Sys) : Res Unit × Sys :=
  match connRemoveObject f (resolveBucket pfx bucket) fnm s with
  | (Res.ok _, s1) => (Res.ok (), s1)
  | (Res.err _, s1) => (Res.ok (), logErr s1)

/-- One attempt of the get method body: resolve the bucket and read the whole
object. -/
def getAttempt (f : Faults) (pfx bucket filename : String) (s : Sys) : Res Bytes × Sys :=
  connGetObject f (resolveBucket pfx bucket) filename s

/-- Translation of get: the attempt retried for _ in range(1), then return
None. -/
def get (f : Faults) (pfx bucket filename : String) (tenant_id : Option Nat)
    (s : Sys) : Res (Option Bytes) × Sys :=
  retryLoop (getAttempt f pfx bucket filename) 1 s

/-- The except clauses shared by obj_exist and bucket_exists: an S3Error with
a not-found code returns False; an S3Error with any other code falls out of
the handler and the method returns None; any other exception is logged and
False is returned. -/
def existHandler (e : ConnError) (s : Sys) : Res (Option Bool) × Sys :=
  match e with
  | ConnError.s3 c =>
    if notFound c then (Res.ok (some false), s) else (Res.ok none, s)
  | ConnError.network => (Res.ok (some false), logErr s)

/-- Translation of obj_exist: False when the bucket is absent, True when the
stat_object probe succeeds, exceptions mapped by the handler. -/
def obj_exist (f : Faults) (pfx bucket filename : String) (tenant_id : Option Nat)
    (s : Sys) : Res (Option Bool) × Sys :=
  let pbucket := resolveBucket pfx bucket
  match connBucketExists f pbucket s with
  | (Res.err e, s1) => existHandler e s1
  | (Res.ok false, s1) => (Res.ok (some false), s1)
  | (Res.ok true, s1) =>
    match connStatObject f pbucket filename s1 with
    | (Res.ok _, s2) => (Res.ok (some true), s2)
    | (Res.err e, s2) => existHandler e s2

/-- Translation of bucket_exists: the boolean of the probe, exceptions mapped
by the same handler shape as obj_exist. -/
def bucket_exists (f : Faults) (pfx bucket : String) (s : Sys) : Res (Option Bool) × Sys :=
  match connBucketExists f (resolveBucket pfx bucket) s with
  | (Res.err e, s1) => existHandler e s1
  | (Res.ok false, s1) => (Res.ok (some false), s1)
  | (Res.ok true, s1) => (Res.ok (some true), s1)

/-- One attempt of get_presigned_url. -/
def presignedAttempt (f : Faults) (pfx bucket fnm : String) (expires : Nat)
    (s : Sys) : Res String × Sys :=
  connPresigned f (resolveBucket pfx bucket) fnm expires s

/-- Translation of get_presigned_url: the attempt retried for _ in range(10),
then return None. -/
def get_presigned_url (f : Faults) (pfx bucket fnm : String) (expires : Nat)
    (tenant_id : Option Nat) (s : Sys) : Res (Option String) × Sys :=
  retryLoop (presignedAttempt f pfx bucket fnm expires) 10 s

/-- The object-deletion loop inside remove_bucket. -/
def removeAll (f : Faults) (b : String) : List String → Sys → Res Unit × Sys
  | [], s => (Res.ok (), s)
  | k :: ks, s =>
    match connRemoveObject f b k s with
    | (Res.ok _, s1) => removeAll f b ks s1
    | (Res.err e, s1) => (Res.err e, s1)

/-- Translation of remove_bucket: when the bucket exists, delete every listed
object then the bucket; any exception is logged and swallowed. -/
def remove_bucket (f : Faults) (pfx bucket : String) (s : Sys) : Res Unit × Sys :=
  let pbucket := resolveBucket pfx bucket
  match connBucketExists f pbucket s with
  | (Res.err _, s1) => (Res.ok (), logErr s1)
  | (Res.ok false, s1) => (Res.ok (), s1)
  | (Res.ok true, s1) =>
    match connListObjects f pbucket s1 with
    | (Res.err _, s2) => (Res.ok (), logErr s2)
    | (Res.ok keys, s2) =>
      match removeAll f pbucket keys s2 with
      | (Res.err _, s3) => (Res.ok (), logErr s3)
      | (Res.ok _, s3) =>
        match connRemoveBucket f pbucket s3 with
        | (Res.err _, s4) => (Res.ok (), logErr s4)
        | (Res.ok _, s4) => (Res.ok (), s4)

/-- Translation of copy: resolve both buckets, create the destination when
absent, probe the source with stat_object inside an inner try whose handler
logs and returns False, then issue the server-side copy and return True; the
outer handler logs and returns False. -/
def copy (f : Faults) (pfx src_bucket src_path dest_bucket dest_path : String)
    (s : Sys) : Res Bool × Sys :=
  let psrc := resolveBucket pfx src_bucket
  let pdest := resolveBucket pfx dest_bucket
  match connBucketExists f pdest s with
  | (Res.err _, s1) => (Res.ok false, logErr s1)
  | (Res.ok ex, s1) =>
    match (if ex then (Res.ok (), s1) else connMakeBucket f pdest s1) with
    | (Res.err _, s2) => (Res.ok false, logErr s2)
    | (Res.ok _, s2) =>
      match connStatObject f psrc src_path s2 with
      | (Res.err _, s3) => (Res.ok false, logErr s3)
      | (Res.ok _, s3) =>
        match connCopyObject f pdest dest_path psrc src_path s3 with
        | (Res.err _, s4) => (Res.ok false, logErr s4)
        | (Res.ok _, s4) => (Res.ok true, s4)

/-- Translation of move: the source resolves both bucket names itself and
passes the already resolved names to self.copy and self.rm, which resolve
again; on a True from copy the source object is removed through rm and True
is returned; on a False from copy an error is logged and False returned. -/
def move (f : Faults) (pfx src_bucket src_path dest_bucket dest_path : String)
    (s : Sys) : Res Bool × Sys :=
  let psrc := resolveBucket pfx src_bucket
  let pdest := resolveBucket pfx dest_bucket
  match copy f pfx psrc src_path pdest dest_path s with
  | (Res.ok true, s1) =>
    match rm f pfx psrc src_path none s1 with
    | (_, s2) => (Res.ok true, s2)
  | (Res.ok false, s1) => (Res.ok false, logErr s1)
  | (Res.err _, s1) => (Res.ok false, logErr s1)

/-! ## Fault schedules and concrete states used in the theorems -/

/-- No induced failures: every connection call runs its normal semantics. -/
def noFail : Faults := fun _ => none

/-- Persistent failure: every connection call raises a generic network
exception. -/
def netFail : Faults := fun _ => some ConnError.network

/-- Persistent failure with an S3Error of code c on every call. -/
def s3Fail (c : S3Code) : Faults := fun _ => some (ConnError.s3 c)

/-- Fault schedule failing exactly the fourth connection call (index 3): in
the move scenario below this is the remove_object call made by rm. -/
def rmFault : Faults := fun i => if i == 3 then some ConnError.network else none

def emptyStore : Store := { buckets := [], objects := [] }

/-- A fresh client state over a given store, all counters zero. -/
def mkSys (st : Store) : Sys :=
  { store := st, calls := 0, reconnects := 0, sleeps := 0, logs := 0, trace := [] }

def sys0 : Sys := mkSys emptyStore

/-- Store holding the same bytes under the once-resolved source bucket p-b
and under the doubly resolved name p-p-b, exposing the double resolution
performed by move. -/
def storeDouble : Store :=
  { buckets := ["p-b", "p-p-b"],
    objects := [("p-b", "k", [1, 2]), ("p-p-b", "k", [1, 2])] }

def sysDouble : Sys := mkSys storeDouble

/-- Store for the move scenario with an empty configured setting: source
bucket b holding one object, destination bucket c already present. -/
def storeMove : Store := { buckets := ["b", "c"], objects := [("b", "k", [7])] }

def sysMove : Sys := mkSys storeMove

/-- Whether a traced connection call is a server-side object copy. -/
def isCopyCall : ConnCall → Bool
  | ConnCall.copyObject _ _ _ _ => true
  | _ => false

/-- Store with one bucket bkt holding one object at key k. -/
def storeWithObj : Store := { buckets := ["bkt"], objects := [("bkt", "k", [1])] }

def sysWithObj : Sys := mkSys storeWithObj

/-- Store with bucket bkt present but empty. -/
def storeBucketOnly : Store := { buckets := ["bkt"], objects := [] }

def sysBucketOnly : Sys := mkSys storeBucketOnly

/-- Store with a source bucket s holding one object; destination d absent. -/
def storeCopySrc : Store := { buckets := ["s"], objects := [("s", "k", [5])] }

def sysCopySrc : Sys := mkSys storeCopySrc

/-- The behaviour of obj_exist and bucket_exists over every outcome class:
bucket absent, object present, object absent in an existing bucket, injected
S3 errors of each not-found code, an injected generic error, and an injected
S3 error of an unexpected code. -/
def ObjExistSpec (pfx b k : String) (t : Option Nat) (s1 s2 s3 s4 : Sys) : Prop :=
    (obj_exist noFail pfx b k t s1).1 = Res.ok (some false)
  ∧ (obj_exist noFail pfx b k t s2).1 = Res.ok (some true)
  ∧ (obj_exist noFail pfx b k t s3).1 = Res.ok (some false)
  ∧ (obj_exist (s3Fail S3Code.noSuchKey) pfx b k t s4).1 = Res.ok (some false)
  ∧ (obj_exist (s3Fail S3Code.noSuchBucket) pfx b k t s4).1 = Res.ok (some false)
  ∧ (obj_exist (s3Fail S3Code.resourceNotFound) pfx b k t s4).1 = Res.ok (some false)
  ∧ (obj_exist netFail pfx b k t s4).1 = Res.ok (some false)
  ∧ (obj_exist netFail pfx b k t s4).2.logs = s4.logs + 1
  ∧ (obj_exist (s3Fail S3Code.accessDenied) pfx b k t s4).1 = Res.ok none
  ∧ (obj_exist (s3Fail S3Code.accessDenied) pfx b k t s4).2.logs = s4.logs
  ∧ (bucket_exists noFail pfx b s2).1 = Res.ok (some true)
  ∧ (bucket_exists noFail pfx b s1).1 = Res.ok (some false)
  ∧ (bucket_exists (s3Fail S3Code.noSuchKey) pfx b s4).1 = Res.ok (some false)
  ∧ (bucket_exists (s3Fail S3Code.noSuchBucket) pfx b s4).1 = Res.ok (some false)
  ∧ (bucket_exists (s3Fail S3Code.resourceNotFound) pfx b s4).1 = Res.ok (some false)
  ∧ (bucket_exists netFail pfx b s4).1 = Res.ok (some false)
  ∧ (bucket_exists netFail pfx b s4).2.logs = s4.logs + 1
  ∧ (bucket_exists (s3Fail S3Code.accessDenied) pfx b s4).1 = Res.ok none
  ∧ (bucket_exists (s3Fail S3Code.accessDenied) pfx b s4).2.logs = s4.logs

/-- The contract of copy over three scenarios: source object absent (run on
s1), source object present (run on s2), and a connection error on every call
(run on s3). -/
def CopySpec (pfx sb sk db dk : String) (v : Bytes) (s1 s2 s3 : Sys) : Prop :=
    ((copy noFail pfx sb sk db dk s1).1 = Res.ok false
  ∧ (copy noFail pfx sb sk db dk s1).2.store.hasBucket (resolveBucket pfx db) = true
  ∧ (copy noFail pfx sb sk db dk s1).2.logs = s1.logs + 1
  ∧ (copy noFail pfx sb sk db dk s1).2.trace.all (fun c => !(isCopyCall c)) = true)
  ∧ ((copy noFail pfx sb sk db dk s2).1 = Res.ok true
  ∧ (copy noFail pfx sb sk db dk s2).2.store.hasBucket (resolveBucket pfx db) = true
  ∧ (copy noFail pfx sb sk db dk s2).2.store.lookupObj (resolveBucket pfx db) dk = some v)
  ∧ ((copy netFail pfx sb sk db dk s3).1 = Res.ok false
  ∧ (copy netFail pfx sb sk db dk s3).2.logs = s3.logs + 1)

/-! ## Helper lemmas -/

theorem retryLoop_isOk {α : Type} (attempt : Sys → Res α × Sys) :
    ∀ (n : Nat) (s : Sys), (retryLoop attempt n s).1.isOk = true := by
  intro n
  induction n with
  | zero => intro s; rfl
  | succ n ih =>
    intro s
    unfold retryLoop
    split
    · rfl
    · exact ih _

theorem rm_isOk (f : Faults) (pfx b k : String) (t : Option Nat) (s : Sys) :
    (rm f pfx b k t s).1 = Res.ok () := by
  unfold rm
  split
  · rfl
  · rfl

theorem copy_isOk (f : Faults) (pfx sb sk db dk : String) (s : Sys) :
    (copy f pfx sb sk db dk s).1.isOk = true := by
  unfold copy
  dsimp only
  split
  · rfl
  · split
    · rfl
    · split
      · rfl
      · split
        · rfl
        · rfl

theorem existHandler_isOk (e : ConnError) (s : Sys) : (existHandler e s).1.isOk = true := by
  cases e with
  | s3 c => cases h : notFound c <;> simp [existHandler, h, Res.isOk]
  | network => rfl

theorem obj_exist_isOk (f : Faults) (pfx b k : String) (t : Option Nat) (s : Sys) :
    (obj_exist f pfx b k t s).1.isOk = true := by
  unfold obj_exist
  dsimp only
  split
  · exact existHandler_isOk _ _
  · rfl
  · split
    · rfl
    · exact existHandler_isOk _ _

theorem bucket_exists_isOk (f : Faults) (pfx b : String) (s : Sys) :
    (bucket_exists f pfx b s).1.isOk = true := by
  unfold bucket_exists
  split
  · exact existHandler_isOk _ _
  · rfl
  · rfl

theorem remove_bucket_isOk (f : Faults) (pfx b : String) (s : Sys) :
    (remove_bucket f pfx b s).1.isOk = true := by
  unfold remove_bucket
  dsimp only
  split
  · rfl
  · rfl
  · split
    · rfl
    · split
      · rfl
      · split
        · rfl
        · rfl

theorem move_isOk (f : Faults) (pfx sb sk db dk : String) (s : Sys) :
    (move f pfx sb sk db dk s).1.isOk = true := by
  unfold move
  dsimp only
  split
  · rfl
  · rfl
  · rfl

theorem retryLoop_all_fail {α : Type} (attempt : Sys → Res α × Sys)
    (h : ∀ s : Sys, (attempt s).1.isOk = false ∧ (attempt s).2.calls = s.calls + 1
      ∧ (attempt s).2.logs = s.logs ∧ (attempt s).2.reconnects = s.reconnects
      ∧ (attempt s).2.sleeps = s.sleeps ∧ (attempt s).2.store = s.store) :
    ∀ (n : Nat) (s : Sys),
      (retryLoop attempt n s).1 = Res.ok none
      ∧ (retryLoop attempt n s).2.calls = s.calls + n
      ∧ (retryLoop attempt n s).2.logs = s.logs + n
      ∧ (retryLoop attempt n s).2.reconnects = s.reconnects + n
      ∧ (retryLoop attempt n s).2.sleeps = s.sleeps + n
      ∧ (retryLoop attempt n s).2.store = s.store := by
  intro n
  induction n with
  | zero => intro s; exact ⟨rfl, rfl, rfl, rfl, rfl, rfl⟩
  | succ n ih =>
    intro s
    obtain ⟨hf, hc, hl, hr, hs, hst⟩ := h s
    unfold retryLoop
    rcases ha : attempt s with ⟨r, s1⟩
    cases r with
    | ok a => simp only [ha] at hf; simp [Res.isOk] at hf
    | err e =>
      simp only [ha] at hc hl hr hs hst
      simp only [ha]
      obtain ⟨ih1, ih2, ih3, ih4, ih5, ih6⟩ := ih (sleep1 (reopen (logErr s1)))
      have e1 : (sleep1 (reopen (logErr s1))).calls = s1.calls := rfl
      have e2 : (sleep1 (reopen (logErr s1))).logs = s1.logs + 1 := rfl
      have e3 : (sleep1 (reopen (logErr s1))).reconnects = s1.reconnects + 1 := rfl
      have e4 : (sleep1 (reopen (logErr s1))).sleeps = s1.sleeps + 1 := rfl
      have e5 : (sleep1 (reopen (logErr s1))).store = s1.store := rfl
      rw [e1] at ih2
      rw [e2] at ih3
      rw [e3] at ih4
      rw [e4] at ih5
      rw [e5] at ih6
      refine ⟨ih1, ?_, ?_, ?_, ?_, ?_⟩
      · omega
      · omega
      · omega
      · omega
      · rw [ih6, hst]

theorem hasBucket_addBucket (st : Store) (b : String) :
    (st.addBucket b).hasBucket b = true := by
  unfold Store.addBucket Store.hasBucket
  dsimp only
  split
  · assumption
  · simp

theorem hasBucket_insertObj (st : Store) (b k : String) (v : Bytes) (b2 : String) :
    (st.insertObj b k v).hasBucket b2 = st.hasBucket b2 := rfl

theorem lookupObj_addBucket (st : Store) (b b2 k : String) :
    (st.addBucket b).lookupObj b2 k = st.lookupObj b2 k := rfl

theorem lookupObj_insertObj (st : Store) (b k : String) (v : Bytes) :
    (st.insertObj b k v).lookupObj b k = some v := by
  simp [Store.insertObj, Store.lookupObj, List.find?_cons_of_pos]

/-! ## Claim theorems -/

/-- Claim C1, settled against the code: move does not apply the bucket-name
transform exactly once. With the configured setting p and caller buckets b
and c, the connection receives the bucket names p-p-c and p-p-b, each the
transform applied twice, and neither equals the once-transformed name of any
caller-supplied bucket. -/
theorem c1_move_applies_transform_twice :
    (move noFail "p" "b" "k" "c" "k2" sys0).2.trace =
      [ConnCall.bucketExists "p-p-c", ConnCall.makeBucket "p-p-c",
       ConnCall.statObject "p-p-b" "k"]
    ∧ resolveBucket "p" "b" = "p-b"
    ∧ resolveBucket "p" "c" = "p-c"
    ∧ ¬ ("p-p-c" = "p-c" ∨ "p-p-c" = "p-b")
    ∧ ¬ ("p-p-b" = "p-c" ∨ "p-p-b" = "p-b") := by decide

/-- Claim C2, settled against the code: with a non-empty configured setting,
move can return True while a subsequent get and obj_exist on the source
still find the object, because the doubly resolved name p-p-b, not the
source bucket p-b, was copied from and deleted. -/
theorem c2_move_source_survives :
    (move noFail "p" "b" "k" "c" "k2" sysDouble).1 = Res.ok true
    ∧ (get noFail "p" "b" "k" none (move noFail "p" "b" "k" "c" "k2" sysDouble).2).1
        = Res.ok (some [1, 2])
    ∧ (obj_exist noFail "p" "b" "k" none (move noFail "p" "b" "k" "c" "k2" sysDouble).2).1
        = Res.ok (some true) := by decide

/-- Claim C3: under persistent failure of every connection call, get makes
exactly 1 attempt, put exactly 3 and get_presigned_url exactly 10 (one
connection call each); every failed attempt is logged, reconnects and is
followed by a one-second pause; each operation then returns no result. -/
theorem c3_retry_ceilings (pfx bucket fnm : String) (binary : Bytes) (expires : Nat)
    (t : Option Nat) (s : Sys) :
    ((get netFail pfx bucket fnm t s).1 = Res.ok none
      ∧ (get netFail pfx bucket fnm t s).2.calls = s.calls + 1
      ∧ (get netFail pfx bucket fnm t s).2.logs = s.logs + 1
      ∧ (get netFail pfx bucket fnm t s).2.reconnects = s.reconnects + 1
      ∧ (get netFail pfx bucket fnm t s).2.sleeps = s.sleeps + 1)
    ∧ ((put netFail pfx bucket fnm binary t s).1 = Res.ok none
      ∧ (put netFail pfx bucket fnm binary t s).2.calls = s.calls + 3
      ∧ (put netFail pfx bucket fnm binary t s).2.logs = s.logs + 3
      ∧ (put netFail pfx bucket fnm binary t s).2.reconnects = s.reconnects + 3
      ∧ (put netFail pfx bucket fnm binary t s).2.sleeps = s.sleeps + 3)
    ∧ ((get_presigned_url netFail pfx bucket fnm expires t s).1 = Res.ok none
      ∧ (get_presigned_url netFail pfx bucket fnm expires t s).2.calls = s.calls + 10
      ∧ (get_presigned_url netFail pfx bucket fnm expires t s).2.logs = s.logs + 10
      ∧ (get_presigned_url netFail pfx bucket fnm expires t s).2.reconnects
          = s.reconnects + 10
      ∧ (get_presigned_url netFail pfx bucket fnm expires t s).2.sleeps = s.sleeps + 10) := by
  refine ⟨?_, ?_, ?_⟩
  · obtain ⟨h1, h2, h3, h4, h5, _⟩ :=
      retryLoop_all_fail (getAttempt netFail pfx bucket fnm)
        (fun s => ⟨rfl, rfl, rfl, rfl, rfl, rfl⟩) 1 s
    exact ⟨h1, h2, h3, h4, h5⟩
  · obtain ⟨h1, h2, h3, h4, h5, _⟩ :=
      retryLoop_all_fail (putAttempt netFail pfx bucket fnm binary)
        (fun s => ⟨rfl, rfl, rfl, rfl, rfl, rfl⟩) 3 s
    exact ⟨h1, h2, h3, h4, h5⟩
  · obtain ⟨h1, h2, h3, h4, h5, _⟩ :=
      retryLoop_all_fail (presignedAttempt netFail pfx bucket fnm expires)
        (fun s => ⟨rfl, rfl, rfl, rfl, rfl, rfl⟩) 10 s
    exact ⟨h1, h2, h3, h4, h5⟩

/-- Claim C4, settled against the code: health has no exception handler, so a
connection error escapes it to the caller; and an S3 error of an unexpected
kind makes obj_exist return the no-result sentinel without logging anything,
so not every failure is logged. -/
theorem c4_health_raises :
    (health netFail "" "hb" sys0).1 = Res.err ConnError.network
    ∧ (obj_exist (s3Fail S3Code.accessDenied) "" "b" "k" none sys0).1 = Res.ok none
    ∧ (obj_exist (s3Fail S3Code.accessDenied) "" "b" "k" none sys0).2.logs = 0 := by decide

/-- Claim C4 as amended: for every public operation except health and for
every behaviour of the underlying connection, no exception propagates to the
caller: each operation ends with an ok result carrying its sentinel value. -/
theorem c4_no_raise_outside_health (f : Faults) (pfx b k db dk : String) (binary : Bytes)
    (expires : Nat) (t : Option Nat) (s : Sys) :
    (put f pfx b k binary t s).1.isOk = true
    ∧ (rm f pfx b k t s).1.isOk = true
    ∧ (get f pfx b k t s).1.isOk = true
    ∧ (obj_exist f pfx b k t s).1.isOk = true
    ∧ (bucket_exists f pfx b s).1.isOk = true
    ∧ (get_presigned_url f pfx b k expires t s).1.isOk = true
    ∧ (remove_bucket f pfx b s).1.isOk = true
    ∧ (copy f pfx b k db dk s).1.isOk = true
    ∧ (move f pfx b k db dk s).1.isOk = true := by
  refine ⟨retryLoop_isOk _ _ _, ?_, retryLoop_isOk _ _ _, obj_exist_isOk f pfx b k t s,
    bucket_exists_isOk f pfx b s, retryLoop_isOk _ _ _, remove_bucket_isOk f pfx b s,
    copy_isOk f pfx b k db dk s, move_isOk f pfx b k db dk s⟩
  rw [rm_isOk f pfx b k t s]
  rfl

/-- Claim C5, settled against the code: bucket_exists maps an S3 error of an
unexpected kind (here AccessDenied) to the no-result sentinel None without
logging, not to a logged False. -/
theorem c5_bucket_exists_unexpected_code :
    (bucket_exists (s3Fail S3Code.accessDenied) "" "b" sys0).1 = Res.ok none
    ∧ (bucket_exists (s3Fail S3Code.accessDenied) "" "b" sys0).2.logs = 0 := by decide

/-- Claim C5 as amended: obj_exist returns False when the bucket is absent,
True exactly when the metadata probe succeeds, maps the not-found S3 codes
to a clean False, maps non-S3 errors to a logged False, and maps S3 errors
of any other kind to an unlogged no-result None; bucket_exists behaves the
same way on its bucket probe. -/
theorem c5_exist_maps (pfx b k : String) (v : Bytes) (t : Option Nat) (s1 s2 s3 s4 : Sys)
    (h1 : s1.store.hasBucket (resolveBucket pfx b) = false)
    (h2 : s2.store.hasBucket (resolveBucket pfx b) = true)
    (h2o : s2.store.lookupObj (resolveBucket pfx b) k = some v)
    (h3 : s3.store.hasBucket (resolveBucket pfx b) = true)
    (h3o : s3.store.lookupObj (resolveBucket pfx b) k = none) :
    ObjExistSpec pfx b k t s1 s2 s3 s4 := by
  unfold ObjExistSpec
  refine ⟨?_, ?_, ?_, rfl, rfl, rfl, rfl, rfl, rfl, rfl, ?_, ?_,
    rfl, rfl, rfl, rfl, rfl, rfl, rfl⟩
  · simp [obj_exist, connBucketExists, connCall, noFail, h1]
  · simp [obj_exist, connBucketExists, connStatObject, connCall, noFail, h2, h2o]
  · simp [obj_exist, connBucketExists, connStatObject, connCall, noFail, h3, h3o,
      existHandler, notFound]
  · simp [bucket_exists, connBucketExists, connCall, noFail, h2]
  · simp [bucket_exists, connBucketExists, connCall, noFail, h1]

/-- Witness for the amended claim C5 at concrete stores: no bucket, a bucket
with the object, a bucket without the object, and a fresh state for the
fault scenarios. -/
theorem c5_exist_maps_witness :
    ObjExistSpec "" "bkt" "k" none sys0 sysWithObj sysBucketOnly sys0 :=
  c5_exist_maps "" "bkt" "k" [1] none sys0 sysWithObj sysBucketOnly sys0
    (by decide) (by decide) (by decide) (by decide) (by decide)

/-- Claim C6: with no induced failures, put followed by get on the same
bucket and key returns exactly the bytes that were put. -/
theorem c6_put_get_roundtrip (pfx bucket key : String) (binary : Bytes)
    (t1 t2 : Option Nat) (s : Sys) :
    (put noFail pfx bucket key binary t1 s).1 = Res.ok (some ())
    ∧ (get noFail pfx bucket key t2 (put noFail pfx bucket key binary t1 s).2).1
        = Res.ok (some binary) := by
  cases hb : s.store.hasBucket (resolveBucket pfx bucket) with
  | false =>
    constructor <;>
      simp [put, get, retryLoop, putAttempt, getAttempt, connBucketExists, connMakeBucket,
        connPutObject, connGetObject, connCall, noFail, hb, hasBucket_addBucket,
        hasBucket_insertObj, lookupObj_addBucket, lookupObj_insertObj]
  | true =>
    constructor <;>
      simp [put, get, retryLoop, putAttempt, getAttempt, connBucketExists, connMakeBucket,
        connPutObject, connGetObject, connCall, noFail, hb, hasBucket_addBucket,
        hasBucket_insertObj, lookupObj_addBucket, lookupObj_insertObj]

/-- Claim C7: copy ensures the destination bucket exists (creating it when
absent), returns a logged False without issuing a server-side copy when the
source object is absent, copies the bytes and returns True when the source
object is present, and converts a connection error into a logged False. -/
theorem c7_copy_contract (pfx sb sk db dk : String) (v : Bytes) (s1 s2 s3 : Sys)
    (habs : s1.store.lookupObj (resolveBucket pfx sb) sk = none)
    (htr : s1.trace = [])
    (hsrc : s2.store.lookupObj (resolveBucket pfx sb) sk = some v) :
    CopySpec pfx sb sk db dk v s1 s2 s3 := by
  unfold CopySpec
  refine ⟨⟨?_, ?_, ?_, ?_⟩, ⟨?_, ?_, ?_⟩, rfl, rfl⟩
  · cases hb : s1.store.hasBucket (resolveBucket pfx db) <;>
      simp [copy, connBucketExists, connMakeBucket, connStatObject, connCopyObject, connCall,
        noFail, hb, habs, htr, hasBucket_addBucket, hasBucket_insertObj, lookupObj_addBucket,
        lookupObj_insertObj, isCopyCall, logErr]
  · cases hb : s1.store.hasBucket (resolveBucket pfx db) <;>
      simp [copy, connBucketExists, connMakeBucket, connStatObject, connCopyObject, connCall,
        noFail, hb, habs, htr, hasBucket_addBucket, hasBucket_insertObj, lookupObj_addBucket,
        lookupObj_insertObj, isCopyCall, logErr]
  · cases hb : s1.store.hasBucket (resolveBucket pfx db) <;>
      simp [copy, connBucketExists, connMakeBucket, connStatObject, connCopyObject, connCall,
        noFail, hb, habs, htr, hasBucket_addBucket, hasBucket_insertObj, lookupObj_addBucket,
        lookupObj_insertObj, isCopyCall, logErr]
  · cases hb : s1.store.hasBucket (resolveBucket pfx db) <;>
      simp [copy, connBucketExists, connMakeBucket, connStatObject, connCopyObject, connCall,
        noFail, hb, habs, htr, hasBucket_addBucket, hasBucket_insertObj, lookupObj_addBucket,
        lookupObj_insertObj, isCopyCall, logErr]
  · cases hb : s2.store.hasBucket (resolveBucket pfx db) <;>
      simp [copy, connBucketExists, connMakeBucket, connStatObject, connCopyObject, connCall,
        noFail, hb, hsrc, hasBucket_addBucket, hasBucket_insertObj, lookupObj_addBucket,
        lookupObj_insertObj, isCopyCall, logErr]
  · cases hb : s2.store.hasBucket (resolveBucket pfx db) <;>
      simp [copy, connBucketExists, connMakeBucket, connStatObject, connCopyObject, connCall,
        noFail, hb, hsrc, hasBucket_addBucket, hasBucket_insertObj, lookupObj_addBucket,
        lookupObj_insertObj, isCopyCall, logErr]
  · cases hb : s2.store.hasBucket (resolveBucket pfx db) <;>
      simp [copy, connBucketExists, connMakeBucket, connStatObject, connCopyObject, connCall,
        noFail, hb, hsrc, hasBucket_addBucket, hasBucket_insertObj, lookupObj_addBucket,
        lookupObj_insertObj, isCopyCall, logErr]

/-- Witness for claim C7 at concrete stores: an empty store for the
source-absent case, a store with the source object for the success case, and
a fresh state for the fault case. -/
theorem c7_copy_contract_witness :
    CopySpec "" "s" "k" "d" "k2" [5] sys0 sysCopySrc sys0 :=
  c7_copy_contract "" "s" "k" "d" "k2" [5] sys0 sysCopySrc sys0
    (by decide) (by decide) (by decide)

/-- Claim C8, settled against the code: a failing rm performs no reconnect at
all; its failure is logged and swallowed. -/
theorem c8_rm_no_reconnect :
    (rm netFail "" "b" "k" none sys0).2.reconnects = 0
    ∧ (rm netFail "" "b" "k" none sys0).2.logs = 1
    ∧ (rm netFail "" "b" "k" none sys0).1 = Res.ok () := by decide

/-- Claim C8 as amended: under persistent connection failure, rm, obj_exist,
bucket_exists, remove_bucket, copy and move log and swallow the failure
without any reconnect, while put, get and get_presigned_url reconnect once
per failed attempt (3, 1 and 10 times). -/
theorem c8_reconnect_scope (pfx b k db dk : String) (binary : Bytes) (expires : Nat)
    (t : Option Nat) (s : Sys) :
    (rm netFail pfx b k t s).2.reconnects = s.reconnects
    ∧ (obj_exist netFail pfx b k t s).2.reconnects = s.reconnects
    ∧ (bucket_exists netFail pfx b s).2.reconnects = s.reconnects
    ∧ (remove_bucket netFail pfx b s).2.reconnects = s.reconnects
    ∧ (copy netFail pfx b k db dk s).2.reconnects = s.reconnects
    ∧ (move netFail pfx b k db dk s).2.reconnects = s.reconnects
    ∧ (rm netFail pfx b k t s).2.logs = s.logs + 1
    ∧ (obj_exist netFail pfx b k t s).2.logs = s.logs + 1
    ∧ (bucket_exists netFail pfx b s).2.logs = s.logs + 1
    ∧ (remove_bucket netFail pfx b s).2.logs = s.logs + 1
    ∧ (copy netFail pfx b k db dk s).2.logs = s.logs + 1
    ∧ (move netFail pfx b k db dk s).2.logs = s.logs + 2
    ∧ (put netFail pfx b k binary t s).2.reconnects = s.reconnects + 3
    ∧ (get netFail pfx b k t s).2.reconnects = s.reconnects + 1
    ∧ (get_presigned_url netFail pfx b k expires t s).2.reconnects = s.reconnects + 10 := by
  refine ⟨rfl, rfl, rfl, rfl, rfl, rfl, rfl, rfl, rfl, rfl, rfl, rfl, ?_, ?_, ?_⟩
  · exact (retryLoop_all_fail (putAttempt netFail pfx b k binary)
      (fun s => ⟨rfl, rfl, rfl, rfl, rfl, rfl⟩) 3 s).2.2.2.1
  · exact (retryLoop_all_fail (getAttempt netFail pfx b k)
      (fun s => ⟨rfl, rfl, rfl, rfl, rfl, rfl⟩) 1 s).2.2.2.1
  · exact (retryLoop_all_fail (presignedAttempt netFail pfx b k expires)
      (fun s => ⟨rfl, rfl, rfl, rfl, rfl, rfl⟩) 10 s).2.2.2.1

/-- Claim C9: the tenant id parameter has no influence whatsoever: for any
two tenant values and otherwise identical arguments and state, put, rm, get,
obj_exist and get_presigned_url produce identical results and effects. -/
theorem c9_tenant_no_influence (f : Faults) (pfx b k : String) (binary : Bytes)
    (expires : Nat) (t1 t2 : Option Nat) (s : Sys) :
    put f pfx b k binary t1 s = put f pfx b k binary t2 s
    ∧ rm f pfx b k t1 s = rm f pfx b k t2 s
    ∧ get f pfx b k t1 s = get f pfx b k t2 s
    ∧ obj_exist f pfx b k t1 s = obj_exist f pfx b k t2 s
    ∧ get_presigned_url f pfx b k expires t1 s = get_presigned_url f pfx b k expires t2 s :=
  ⟨rfl, rfl, rfl, rfl, rfl⟩

/-- Claim C10: the return value of move is exactly the return value of its
internal copy call (on the already once-resolved bucket names); and in a
concrete run where only the remove_object call of rm fails, move still
returns True while the source object is still present afterwards. -/
theorem c10_move_result :
    (∀ (f : Faults) (pfx sb sk db dk : String) (s : Sys),
      (move f pfx sb sk db dk s).1
        = (copy f pfx (resolveBucket pfx sb) sk (resolveBucket pfx db) dk s).1)
    ∧ (move rmFault "" "b" "k" "c" "k2" sysMove).1 = Res.ok true
    ∧ (move rmFault "" "b" "k" "c" "k2" sysMove).2.store.lookupObj "b" "k" = some [7] := by
  refine ⟨?_, by decide, by decide⟩
  intro f pfx sb sk db dk s
  unfold move
  dsimp only
  have hok := copy_isOk f pfx (resolveBucket pfx sb) sk (resolveBucket pfx db) dk s
  rcases h : copy f pfx (resolveBucket pfx sb) sk (resolveBucket pfx db) dk s with ⟨r, s1⟩
  simp only [h] at hok
  simp only [h]
  cases r with
  | ok b => cases b <;> rfl
  | err e => simp [Res.isOk] at hok

end MinioConn
